import Mathlib

/-!
# Verification of the xlsx-to-pdf conversion service

A shallow embedding of the request-processing pipeline of `src/index.js`
(an Express microservice converting spreadsheets to PDF via an external
renderer), together with proofs about its validation, error classification,
formatting, concurrency-limiter and filename-sanitization behaviour.
-/

namespace XlsxToPdf

/-! ## Configuration (src/index.js, `config`)

Only the fields read by the `/convert` pipeline are modelled; the default
values are those of the source (`DEFAULT_FONT_SIZE` 9, `MEMORY_LIMIT_MB` 512).
-/

structure Config where
  defaultFontSize : Int
  memoryLimitMB : Nat
deriving Repr, DecidableEq

def defaultConfig : Config := { defaultFontSize := 9, memoryLimitMB := 512 }

/-- JavaScript `Math.min(Math.max(x, lo), hi)` as it appears in src/index.js. -/
def jsClamp (x lo hi : Int) : Int := min (max x lo) hi

/-- JavaScript string-valued `v || dflt`: `none` models a missing field
(`undefined`), the empty string is falsy, any other string is truthy. -/
def jsOr (v : Option String) (dflt : String) : String :=
  match v with
  | none => dflt
  | some s => if s = "" then dflt else s

/-! ## JavaScript `parseInt`

`parseInt` skips leading whitespace, accepts an optional sign, then reads a
leading run of digits (with `0x`/`0X` switching to hexadecimal); it returns
NaN when no digit follows.  `none` models NaN. -/

def decValue (cs : List Char) : Nat :=
  cs.foldl (fun a c => a * 10 + (c.toNat - 48)) 0

def isHexDigitChar (c : Char) : Bool :=
  c.isDigit || ('a' ≤ c && c ≤ 'f') || ('A' ≤ c && c ≤ 'F')

def hexDigitValue (c : Char) : Nat :=
  if c.isDigit then c.toNat - 48
  else if 'a' ≤ c && c ≤ 'f' then c.toNat - 87
  else c.toNat - 55

def hexValue (cs : List Char) : Nat :=
  cs.foldl (fun a c => a * 16 + hexDigitValue c) 0

def parseUnsigned (cs : List Char) : Option Nat :=
  match cs with
  | '0' :: x :: rest =>
    if x = 'x' ∨ x = 'X' then
      let ds := rest.takeWhile isHexDigitChar
      if ds.isEmpty then none else some (hexValue ds)
    else
      some (decValue (('0' :: x :: rest).takeWhile Char.isDigit))
  | _ =>
    let ds := cs.takeWhile Char.isDigit
    if ds.isEmpty then none else some (decValue ds)

/-- JavaScript `parseInt` on an optional request field (`none` = missing field,
which `parseInt` maps to NaN); a `none` result models NaN. -/
def jsParseInt (field : Option String) : Option Int :=
  match field with
  | none => none
  | some s =>
    match s.data.dropWhile Char.isWhitespace with
    | '-' :: rest => (parseUnsigned rest).map (fun n => -(n : Int))
    | '+' :: rest => (parseUnsigned rest).map (fun n => (n : Int))
    | cs => (parseUnsigned cs).map (fun n => (n : Int))

/-- src/index.js line 127: `parseInt(req.body.fontSize) || config.defaultFontSize`
(both NaN and 0 are falsy, so both fall back to the default). -/
def rawFontSize (dflt : Int) (field : Option String) : Int :=
  match jsParseInt field with
  | none => dflt
  | some v => if v = 0 then dflt else v

/-- src/index.js line 128: `Math.min(Math.max(rawFontSize, 6), 72)`. -/
def effectiveFontSize (dflt : Int) (field : Option String) : Int :=
  jsClamp (rawFontSize dflt field) 6 72

/-- The spec's description of the effective font size: `clamp(input, 6, 72)`,
with an input of 0 and an absent or unparsable field falling back to the
configured default 9. -/
def claimFontSize (field : Option String) : Int :=
  match jsParseInt field with
  | none => 9
  | some v => if v = 0 then 9 else jsClamp v 6 72

/-! ## Worksheet model and the document transform

The in-memory document mutated inside the concurrency-limited closure of the
`/convert` handler (src/index.js lines 139-157).  A column's cell list uses
`none` for positions skipped by `eachCell({ includeEmpty: false })`; the
`name` field of `Font` and the `other` field of `PageSetup` stand for the
properties preserved by the object spreads `{ ...cell.font, ... }` and
`{ ...worksheet.pageSetup, ... }`. -/

structure Font where
  size : Int
  name : String
deriving Repr, DecidableEq

structure Cell where
  value : Option String
  font : Font
deriving Repr, DecidableEq

/-- src/index.js line 144: `cell.value ? cell.value.toString() : ""`. -/
def cellText (c : Cell) : String := c.value.getD ""

structure Column where
  cells : List (Option Cell)
  width : Int
deriving Repr, DecidableEq

structure PageSetup where
  orientation : String
  fitToPage : Bool
  fitToWidth : Int
  fitToHeight : Int
  paperSize : Int
  other : String
deriving Repr, DecidableEq

structure Worksheet where
  columns : List Column
  pageSetup : PageSetup
deriving Repr, DecidableEq

/-- src/index.js line 143: `cell.font = { ...cell.font, size: fontSize }`. -/
def setCellFont (fontSize : Int) (c : Cell) : Cell :=
  { c with font := { c.font with size := fontSize } }

/-- The `maxLength` accumulation of src/index.js lines 141-146: a fold over the
existing cells of the column, starting from 0. -/
def colMaxLength (cells : List (Option Cell)) : Nat :=
  cells.foldl
    (fun m oc =>
      match oc with
      | none => m
      | some c => max m (cellText c).length) 0

/-- src/index.js line 147: `column.width = Math.min(Math.max(maxLength + 2, 8), 50)`. -/
def columnWidth (cells : List (Option Cell)) : Int :=
  jsClamp ((colMaxLength cells : Int) + 2) 8 50

/-- The per-column body of the transform loop: set every existing cell's font
size, then set the width computed from the (value-preserving) mutated cells. -/
def transformColumn (fontSize : Int) (col : Column) : Column :=
  let cells := col.cells.map (Option.map (setCellFont fontSize))
  { cells := cells, width := columnWidth cells }

/-- src/index.js lines 139-157: per-sheet transform (columns plus page setup). -/
def transformSheet (fontSize : Int) (landscape : String) (ws : Worksheet) : Worksheet :=
  { columns := ws.columns.map (transformColumn fontSize)
    pageSetup :=
      { ws.pageSetup with
        orientation := if landscape = "true" then "landscape" else "portrait"
        fitToPage := true
        fitToWidth := 1
        fitToHeight := 0
        paperSize := 9 } }

/-- The `workbook.eachSheet` loop applying the transform to every sheet. -/
def transformWorkbook (fontSize : Int) (landscape : String)
    (sheets : List Worksheet) : List Worksheet :=
  sheets.map (transformSheet fontSize landscape)

/-- The spec's `L` for a column: the length of the longest string
representation of any non-empty cell's value, empty cells excluded from the
maximum. -/
def claimMaxLength : List (Option Cell) → Nat
  | [] => 0
  | none :: rest => claimMaxLength rest
  | some c :: rest =>
    match c.value with
    | none => claimMaxLength rest
    | some s => max s.length (claimMaxLength rest)

/-- The spec's column-width formula: `clamp(L + 2, 8, 50)`. -/
def claimWidth (cells : List (Option Cell)) : Int :=
  jsClamp ((claimMaxLength cells : Int) + 2) 8 50

/-! ### Lemmas about the width computation -/

lemma foldl_colMax (cells : List (Option Cell)) (m : Nat) :
    cells.foldl
      (fun m oc =>
        match oc with
        | none => m
        | some c => max m (cellText c).length) m
      = max m (claimMaxLength cells) := by
  induction cells generalizing m with
  | nil => simp [claimMaxLength]
  | cons oc rest ih =>
    cases oc with
    | none => simp [claimMaxLength, ih]
    | some c =>
      rw [List.foldl_cons, ih]
      cases hv : c.value with
      | none =>
        simp [claimMaxLength, cellText, hv]
      | some s =>
        simp [claimMaxLength, cellText, hv]
        omega

lemma colMaxLength_eq_claim (cells : List (Option Cell)) :
    colMaxLength cells = claimMaxLength cells := by
  simpa [colMaxLength] using foldl_colMax cells 0

lemma cellText_setCellFont (fontSize : Int) (c : Cell) :
    cellText (setCellFont fontSize c) = cellText c := rfl

lemma claimMaxLength_map_font (fontSize : Int) (cells : List (Option Cell)) :
    claimMaxLength (cells.map (Option.map (setCellFont fontSize)))
      = claimMaxLength cells := by
  induction cells with
  | nil => rfl
  | cons oc rest ih =>
    cases oc with
    | none => simpa [claimMaxLength] using ih
    | some c =>
      cases hv : c.value with
      | none => simp [claimMaxLength, setCellFont, hv, ih]
      | some s => simp [claimMaxLength, setCellFont, hv, ih]

lemma setCellFont_idem (fontSize : Int) (c : Cell) :
    setCellFont fontSize (setCellFont fontSize c) = setCellFont fontSize c := rfl

lemma map_setCellFont_idem (fontSize : Int) (cells : List (Option Cell)) :
    (cells.map (Option.map (setCellFont fontSize))).map
        (Option.map (setCellFont fontSize))
      = cells.map (Option.map (setCellFont fontSize)) := by
  induction cells with
  | nil => rfl
  | cons oc rest ih =>
    cases oc with
    | none => simp [ih]
    | some c => simp [ih, setCellFont]

lemma transformColumn_idem (fontSize : Int) (col : Column) :
    transformColumn fontSize (transformColumn fontSize col)
      = transformColumn fontSize col := by
  simp only [transformColumn]
  rw [map_setCellFont_idem]

lemma transformSheet_idem (fontSize : Int) (landscape : String) (ws : Worksheet) :
    transformSheet fontSize landscape (transformSheet fontSize landscape ws)
      = transformSheet fontSize landscape ws := by
  simp [transformSheet, List.map_map, Function.comp, transformColumn_idem]

/-! ## Claim theorems about the document transform -/

/-- Claim C5. For every `fontSize` request field, the font size applied to cells
equals `clamp(parsed input, 6, 72)` — with an input of 0 and an absent or
unparsable field falling back to the configured default 9 — as described by
`claimFontSize`; in particular input "200" yields 72 and input "0" or an
absent field yields 9. -/
theorem c5_font_size :
    (∀ (field : Option String) (c : Cell),
        (setCellFont (effectiveFontSize defaultConfig.defaultFontSize field) c).font.size
          = claimFontSize field) ∧
    effectiveFontSize defaultConfig.defaultFontSize (some "200") = 72 ∧
    effectiveFontSize defaultConfig.defaultFontSize (some "0") = 9 ∧
    effectiveFontSize defaultConfig.defaultFontSize none = 9 := by
  refine ⟨?_, by decide, by decide, by decide⟩
  intro field c
  show effectiveFontSize defaultConfig.defaultFontSize field = claimFontSize field
  unfold effectiveFontSize rawFontSize claimFontSize
  cases jsParseInt field with
  | none => decide
  | some v =>
    by_cases hv : v = 0
    · rw [hv]; decide
    · simp [hv]

/-- Claim C6. For every column, the width applied by the transform equals
`clamp(L + 2, 8, 50)` where `L` is the length of the longest string
representation of any non-empty cell's value in that column (empty cells
excluded from the maximum); a column whose longest non-empty value has
length 10 gets width 12. -/
theorem c6_column_width :
    (∀ (fontSize : Int) (col : Column),
        (transformColumn fontSize col).width = claimWidth col.cells) ∧
    (transformColumn 9
        { cells := [some { value := some "Company 42", font := { size := 11, name := "Calibri" } }]
          width := 0 }).width = 12 := by
  refine ⟨?_, by decide⟩
  intro fontSize col
  simp [transformColumn, columnWidth, claimWidth, colMaxLength_eq_claim,
    claimMaxLength_map_font]

/-- Claim C9. The document transform is idempotent: applying it a second time
with identical options (font size, orientation) changes no observable
formatting state, because width and font outputs are deterministic functions
of cell content, not of prior formatting. -/
theorem c9_idempotent :
    ∀ (fontSize : Int) (landscape : String) (sheets : List Worksheet),
      transformWorkbook fontSize landscape (transformWorkbook fontSize landscape sheets)
        = transformWorkbook fontSize landscape sheets := by
  intro fontSize landscape sheets
  simp [transformWorkbook, List.map_map, Function.comp, transformSheet_idem]

/-! ## The `/convert` request handler (src/index.js lines 111-222)

The handler is embedded as a function from a request (together with the
behaviour of the external renderer for that request) to the pair of the list
of pipeline stages that executed, in order, and the terminal HTTP response.
The renderer behaviour models `node-fetch`: a delivered HTTP response carries
a status, the error-body text read by `gotenbergRes.text()` and the response
body bytes; a rejected call carries the thrown error's `name` and `code`
(`node-fetch` rejects with name `"AbortError"` when the cancellation signal
fires and with name `"FetchError"` on transport/connection failure). -/

def XLSX_MAGIC : List Nat := [0x50, 0x4B, 0x03, 0x04]

/-- src/index.js lines 95-98. -/
def isValidXlsx : Option (List Nat) → Bool
  | none => false
  | some buffer => if buffer.length < 4 then false else buffer.take 4 == XLSX_MAGIC

/-- The character class `[a-zA-Z0-9._-]` of src/index.js lines 100-102. -/
def allowedChar (c : Char) : Bool :=
  ('a' ≤ c && c ≤ 'z') || ('A' ≤ c && c ≤ 'Z') || ('0' ≤ c && c ≤ '9') ||
    c == '.' || c == '_' || c == '-'

/-- src/index.js lines 100-102: `name.replace(/[^a-zA-Z0-9._-]/g, "_")`. -/
def sanitizeFilename (name : String) : String :=
  String.mk (name.data.map (fun c => if allowedChar c then c else '_'))

/-- src/index.js line 202: `originalName.replace(/\.xlsx$/i, ".pdf")`. -/
def replaceXlsxExt (name : String) : String :=
  let cs := name.data
  if 5 ≤ cs.length ∧ (cs.drop (cs.length - 5)).map Char.toLower = ".xlsx".data then
    String.mk (cs.take (cs.length - 5) ++ ".pdf".data)
  else
    name

/-- src/index.js lines 201-202: the attachment filename. -/
def pdfNameOf (originalname : Option String) : String :=
  sanitizeFilename (replaceXlsxExt (jsOr originalname "export.xlsx"))

/-- The `node-fetch` response field `ok`: status in `[200, 300)`. -/
def fetchOk (status : Nat) : Bool :=
  decide (200 ≤ status) && decide (status < 300)

inductive Stage
  | admission
  | validator
  | transformer
  | dispatcher
  | composer
deriving Repr, DecidableEq

inductive RendererResult
  | respond (status : Nat) (errText : String) (body : List Nat)
  | fail (errName : String) (errCode : String)
deriving Repr, DecidableEq

structure UploadedFile where
  buffer : Option (List Nat)
  originalname : Option String
deriving Repr, DecidableEq

structure ConvertRequest where
  memoryMB : Nat
  file : Option UploadedFile
  fontSize : Option String
  landscape : Option String
  renderer : RendererResult
deriving Repr, DecidableEq

inductive Response
  | jsonError (status : Nat) (error : String)
  | pdf (body : List Nat) (filename : String)
deriving Repr, DecidableEq

def Response.statusCode : Response → Nat
  | .jsonError s _ => s
  | .pdf _ _ => 200

/-- The stage trace of a request that reaches the outbound renderer call. -/
def fullTrace : List Stage :=
  [.admission, .validator, .transformer, .dispatcher, .composer]

/-- src/index.js lines 111-222, the `/convert` handler: memory admission check,
file-presence and magic-signature validation, the concurrency-limited
transform-and-dispatch closure, response composition, and the catch block
classifying thrown errors. -/
def convertHandler (cfg : Config) (req : ConvertRequest) : List Stage × Response :=
  if cfg.memoryLimitMB < req.memoryMB then
    ([.admission, .composer],
      .jsonError 503 "Server is under heavy load, please try again later")
  else
    match req.file with
    | none => ([.admission, .validator, .composer], .jsonError 400 "No file uploaded")
    | some file =>
      if isValidXlsx file.buffer = false then
        ([.admission, .validator, .composer],
          .jsonError 400 "Invalid file type. Only .xlsx files are accepted")
      else
        match req.renderer with
        | .fail errName errCode =>
          if errName = "AbortError" then
            (fullTrace, .jsonError 504 "PDF conversion timed out")
          else if errCode = "LIMIT_FILE_SIZE" then
            (fullTrace, .jsonError 413 "File too large")
          else
            (fullTrace, .jsonError 500 "Internal server error")
        | .respond status _errText body =>
          if fetchOk status = false then
            (fullTrace,
              .jsonError (if 500 ≤ status then 502 else status) "PDF conversion failed")
          else
            (fullTrace, .pdf body (pdfNameOf file.originalname))

lemma isValidXlsx_some (bytes : List Nat) :
    isValidXlsx (some bytes) = true ↔ bytes.take 4 = XLSX_MAGIC := by
  show (if bytes.length < 4 then false else bytes.take 4 == XLSX_MAGIC) = true
      ↔ bytes.take 4 = XLSX_MAGIC
  split
  · rename_i hlen
    simp only [Bool.false_eq_true, false_iff]
    intro h
    have h4 : (bytes.take 4).length = 4 := by rw [h]; rfl
    rw [List.length_take] at h4
    omega
  · simp

/-! ### Stage ordering -/

def isSubseq : List Stage → List Stage → Bool
  | [], _ => true
  | _ :: _, [] => false
  | a :: as, b :: bs => if a = b then isSubseq as bs else isSubseq (a :: as) bs

/-- The stage order asserted by the spec: Validator before Admission Guard. -/
def specOrder : List Stage :=
  [.validator, .admission, .transformer, .dispatcher, .composer]

/-- The stage order actually implemented: the memory admission check
(src/index.js lines 113-117) runs before the file validation (lines 119-125). -/
def codeOrder : List Stage :=
  [.admission, .validator, .transformer, .dispatcher, .composer]

lemma convertHandler_trace (cfg : Config) (req : ConvertRequest) :
    (convertHandler cfg req).1 = [.admission, .composer] ∨
    (convertHandler cfg req).1 = [.admission, .validator, .composer] ∨
    (convertHandler cfg req).1 = fullTrace := by
  unfold convertHandler
  repeat' split
  all_goals simp

/-! ### Concrete requests used as inputs -/

def validFile : UploadedFile :=
  { buffer := some [0x50, 0x4B, 0x03, 0x04], originalname := some "test.xlsx" }

def badFile : UploadedFile :=
  { buffer := some [0, 0, 0, 0], originalname := some "bad.xlsx" }

def shortFile : UploadedFile :=
  { buffer := some [0x50], originalname := some "short.xlsx" }

/-- An invalid-signature upload arriving while resident memory (513 MB) is
above the configured ceiling (512 MB). -/
def overloadedBadReq : ConvertRequest :=
  { memoryMB := 513, file := some badFile, fontSize := none, landscape := none
    renderer := .respond 200 "" [] }

/-- An invalid-signature upload with memory below the ceiling. -/
def okBadReq : ConvertRequest :=
  { memoryMB := 0, file := some badFile, fontSize := none, landscape := none
    renderer := .respond 200 "" [] }

/-- A short (1-byte) upload arriving while memory is above the ceiling. -/
def overloadedShortReq : ConvertRequest :=
  { memoryMB := 513, file := some shortFile, fontSize := none, landscape := none
    renderer := .respond 200 "" [] }

/-- A short (1-byte) upload with memory below the ceiling. -/
def okShortReq : ConvertRequest :=
  { memoryMB := 0, file := some shortFile, fontSize := none, landscape := none
    renderer := .respond 200 "" [] }

/-- A valid upload whose renderer call returns HTTP 503 with an error body. -/
def upstream503Req : ConvertRequest :=
  { memoryMB := 0, file := some validFile, fontSize := none, landscape := none
    renderer := .respond 503 "upstream detail" [] }

/-- A valid upload whose renderer call fails at the transport level
(`node-fetch` rejects with an error named `"FetchError"`). -/
def transportFailReq : ConvertRequest :=
  { memoryMB := 0, file := some validFile, fontSize := none, landscape := none
    renderer := .fail "FetchError" "ECONNREFUSED" }

/-- A valid upload whose renderer call is aborted by the timeout's
cancellation signal (`node-fetch` rejects with an error named `"AbortError"`). -/
def abortReq : ConvertRequest :=
  { memoryMB := 0, file := some validFile, fontSize := none, landscape := none
    renderer := .fail "AbortError" "" }

/-- A valid upload whose renderer call succeeds. -/
def successReq : ConvertRequest :=
  { memoryMB := 0, file := some validFile, fontSize := none, landscape := none
    renderer := .respond 200 "" [1, 2, 3] }

/-! ## Claim theorems about the handler -/

/-- Claim C1, counterexample. It is not true that every upload whose first 4
bytes differ from the ZIP magic gets HTTP 400: when resident memory exceeds
the configured ceiling, the admission guard (which runs first) answers 503. -/
theorem c1_counterexample :
    ¬ (∀ (cfg : Config) (req : ConvertRequest) (file : UploadedFile) (bytes : List Nat),
        req.file = some file → file.buffer = some bytes → bytes.take 4 ≠ XLSX_MAGIC →
        (convertHandler cfg req).2
            = Response.jsonError 400 "Invalid file type. Only .xlsx files are accepted" ∧
          Stage.transformer ∉ (convertHandler cfg req).1 ∧
          Stage.dispatcher ∉ (convertHandler cfg req).1) := by
  intro h
  have h2 := h defaultConfig overloadedBadReq badFile [0, 0, 0, 0] rfl rfl (by decide)
  exact absurd h2.1 (by decide)

/-- Claim C1, amended. For every upload whose first 4 bytes differ from the ZIP
magic, provided the admission guard admits the request (memory at or below the
ceiling), the handler returns HTTP 400 with the invalid-file-type error and
neither the Document Transformer nor the Render Dispatcher stage runs. -/
theorem c1_amended (cfg : Config) (req : ConvertRequest) (file : UploadedFile)
    (bytes : List Nat)
    (hmem : req.memoryMB ≤ cfg.memoryLimitMB)
    (hfile : req.file = some file)
    (hbuf : file.buffer = some bytes)
    (hmagic : bytes.take 4 ≠ XLSX_MAGIC) :
    (convertHandler cfg req).2
        = Response.jsonError 400 "Invalid file type. Only .xlsx files are accepted" ∧
      Stage.transformer ∉ (convertHandler cfg req).1 ∧
      Stage.dispatcher ∉ (convertHandler cfg req).1 := by
  have hvalid : isValidXlsx file.buffer = false := by
    rw [hbuf, Bool.eq_false_iff]
    intro h
    exact hmagic ((isValidXlsx_some bytes).mp h)
  obtain ⟨mem, ofile, fs, ls, rend⟩ := req
  dsimp only at hmem hfile
  subst hfile
  unfold convertHandler
  rw [if_neg (Nat.not_lt.mpr hmem)]
  dsimp only
  rw [hvalid, if_pos rfl]
  exact ⟨rfl, by decide, by decide⟩

/-- Claim C1, witness. The amended theorem at a concrete input: a 4-byte
non-ZIP upload with memory below the ceiling gets the 400 response. -/
theorem c1_witness :
    (convertHandler defaultConfig okBadReq).2
      = Response.jsonError 400 "Invalid file type. Only .xlsx files are accepted" :=
  (c1_amended defaultConfig okBadReq badFile [0, 0, 0, 0]
    (by decide) rfl rfl (by decide)).1

/-- Claim C2. For every renderer HTTP response with non-success status (HTTP
status codes lie in `[100, 599]`): a status in `[500, 599]` is mapped to
client status 502 and any other non-success status is passed through
unchanged; in both cases the body sent to the client is the generic
`"PDF conversion failed"` message, for every upstream error-body text. -/
theorem c2_upstream_error (cfg : Config) (req : ConvertRequest) (file : UploadedFile)
    (status : Nat) (errText : String) (body : List Nat)
    (hmem : req.memoryMB ≤ cfg.memoryLimitMB)
    (hfile : req.file = some file)
    (hvalid : isValidXlsx file.buffer = true)
    (hrend : req.renderer = .respond status errText body)
    (hok : fetchOk status = false)
    (hle : status ≤ 599) :
    (500 ≤ status →
        (convertHandler cfg req).2 = Response.jsonError 502 "PDF conversion failed") ∧
      (status < 500 →
        (convertHandler cfg req).2 = Response.jsonError status "PDF conversion failed") := by
  obtain ⟨mem, ofile, fs, ls, rend⟩ := req
  dsimp only at hmem hfile hrend
  subst hfile hrend
  unfold convertHandler
  rw [if_neg (Nat.not_lt.mpr hmem)]
  dsimp only
  rw [hvalid, if_neg (by simp)]
  rw [if_pos hok]
  constructor
  · intro h5; rw [if_pos h5]
  · intro h5; rw [if_neg (by omega)]

/-- Claim C2, witness. The theorem at a concrete input: a renderer 503 with an
upstream error body yields client status 502 and the generic message. -/
theorem c2_witness :
    (convertHandler defaultConfig upstream503Req).2
      = Response.jsonError 502 "PDF conversion failed" :=
  (c2_upstream_error defaultConfig upstream503Req validFile 503 "upstream detail" []
    (by decide) rfl (by decide) rfl (by decide) (by decide)).1 (by decide)

/-- Claim C3, counterexample. It is not true that every transport/connection
failure or abort of the renderer call yields HTTP 504: a transport failure
(`node-fetch`'s `FetchError`) is not named `"AbortError"`, so it falls through
the catch block to the generic 500 response. -/
theorem c3_counterexample :
    ¬ (∀ (cfg : Config) (req : ConvertRequest) (file : UploadedFile)
          (errName errCode : String),
        req.memoryMB ≤ cfg.memoryLimitMB →
        req.file = some file →
        isValidXlsx file.buffer = true →
        req.renderer = .fail errName errCode →
        (errName = "FetchError" ∨ errName = "AbortError") →
        (convertHandler cfg req).2
          = Response.jsonError 504 "PDF conversion timed out") := by
  intro h
  have h2 := h defaultConfig transportFailReq validFile "FetchError" "ECONNREFUSED"
    (by decide) rfl (by decide) rfl (Or.inl rfl)
  exact absurd h2 (by decide)

/-- Claim C3, amended. Only a renderer call aborted by the timeout's
cancellation signal (error name `"AbortError"`) is classified as a timeout and
answered with HTTP 504; a failure with any other error name (in particular a
transport/connection failure, whose name is `"FetchError"`) falls through to
the internal-error response 500. -/
theorem c3_amended (cfg : Config) (req : ConvertRequest) (file : UploadedFile)
    (errName errCode : String)
    (hmem : req.memoryMB ≤ cfg.memoryLimitMB)
    (hfile : req.file = some file)
    (hvalid : isValidXlsx file.buffer = true)
    (hrend : req.renderer = .fail errName errCode) :
    (errName = "AbortError" →
        (convertHandler cfg req).2 = Response.jsonError 504 "PDF conversion timed out") ∧
      (errName ≠ "AbortError" → errCode ≠ "LIMIT_FILE_SIZE" →
        (convertHandler cfg req).2 = Response.jsonError 500 "Internal server error") := by
  obtain ⟨mem, ofile, fs, ls, rend⟩ := req
  dsimp only at hmem hfile hrend
  subst hfile hrend
  unfold convertHandler
  rw [if_neg (Nat.not_lt.mpr hmem)]
  dsimp only
  rw [hvalid, if_neg (by simp)]
  constructor
  · intro ha; rw [if_pos ha]
  · intro ha hc; rw [if_neg ha, if_neg hc]

/-- Claim C3, witness. The amended theorem at a concrete input: an aborted call
yields the 504 timeout response. -/
theorem c3_witness :
    (convertHandler defaultConfig abortReq).2
      = Response.jsonError 504 "PDF conversion timed out" :=
  (c3_amended defaultConfig abortReq validFile "AbortError" ""
    (by decide) rfl (by decide) rfl).1 rfl

/-- Claim C8, counterexample. It is not true that the stages run in the order
Validator, Admission Guard, Transformer, Dispatcher, Composer: on a fully
successful request the trace places the admission (memory) check before the
validator, so it is not a subsequence of the spec's order. -/
theorem c8_counterexample :
    ¬ (∀ (cfg : Config) (req : ConvertRequest),
        isSubseq (convertHandler cfg req).1 specOrder = true) := by
  intro h
  exact absurd (h defaultConfig successReq) (by decide)

/-- Claim C8, amended. For every request, the executed stages are a subsequence
of the order Admission Guard, Input Validator, Document Transformer, Render
Dispatcher, Response Composer; no stage runs before an earlier one in that
order. -/
theorem c8_amended :
    ∀ (cfg : Config) (req : ConvertRequest),
      isSubseq (convertHandler cfg req).1 codeOrder = true := by
  intro cfg req
  rcases convertHandler_trace cfg req with h | h | h <;> rw [h] <;> decide

/-- Claim C10, counterexample. It is not true that every upload with a missing
buffer or fewer than 4 bytes is answered with the invalid-file-type 400: under
memory pressure the admission guard answers 503 first. -/
theorem c10_counterexample :
    ¬ (∀ (cfg : Config) (req : ConvertRequest) (file : UploadedFile),
        req.file = some file →
        (file.buffer = none ∨ ∃ bytes, file.buffer = some bytes ∧ bytes.length < 4) →
        (convertHandler cfg req).2
          = Response.jsonError 400 "Invalid file type. Only .xlsx files are accepted") := by
  intro h
  have h2 := h defaultConfig overloadedShortReq shortFile rfl
    (Or.inr ⟨[0x50], rfl, by decide⟩)
  exact absurd h2 (by decide)

/-- Claim C10, amended. `isValidXlsx` is total at the boundary: it returns
`false` on a missing (null/undefined) buffer and on every buffer of fewer
than 4 bytes; consequently, provided the admission guard admits the request,
such uploads are rejected with the invalid-file-type 400 rather than causing
an internal fault. -/
theorem c10_amended :
    isValidXlsx none = false ∧
      (∀ bytes : List Nat, bytes.length < 4 → isValidXlsx (some bytes) = false) ∧
      (∀ (cfg : Config) (req : ConvertRequest) (file : UploadedFile),
        req.memoryMB ≤ cfg.memoryLimitMB →
        req.file = some file →
        (file.buffer = none ∨ ∃ bytes, file.buffer = some bytes ∧ bytes.length < 4) →
        (convertHandler cfg req).2
          = Response.jsonError 400 "Invalid file type. Only .xlsx files are accepted") := by
  have hshort : ∀ bytes : List Nat, bytes.length < 4 → isValidXlsx (some bytes) = false := by
    intro bytes hlen
    show (if bytes.length < 4 then false else bytes.take 4 == XLSX_MAGIC) = false
    rw [if_pos hlen]
  refine ⟨rfl, hshort, ?_⟩
  intro cfg req file hmem hfile hbuf
  have hvalid : isValidXlsx file.buffer = false := by
    rcases hbuf with h | ⟨bytes, hb, hlen⟩
    · rw [h]; rfl
    · rw [hb]; exact hshort bytes hlen
  obtain ⟨mem, ofile, fs, ls, rend⟩ := req
  dsimp only at hmem hfile
  subst hfile
  unfold convertHandler
  rw [if_neg (Nat.not_lt.mpr hmem)]
  dsimp only
  rw [hvalid, if_pos rfl]

/-- Claim C10, witness. The amended theorem at a concrete input: a 1-byte
upload with memory below the ceiling gets the 400 response. -/
theorem c10_witness :
    (convertHandler defaultConfig okShortReq).2
      = Response.jsonError 400 "Invalid file type. Only .xlsx files are accepted" :=
  c10_amended.2.2 defaultConfig okShortReq shortFile (by decide) rfl
    (Or.inr ⟨[0x50], rfl, by decide⟩)

/-! ## The concurrency limiter

Modelled from the spec: the Concurrency Limiter (the `p-limit` package
instantiated at src/index.js line 90) is not part of this repository's
sources; spec section 4.4 describes it as "a counting admission gate with a
fixed capacity N: `schedule(task)` enqueues `task` and runs it only when
fewer than N tasks are currently running; otherwise the call awaits until a
slot frees. Slots are released unconditionally when a task completes or
fails."  States count the running and the queued tasks; events are the
submission of a task and the completion of a running task, the latter
carrying whether the task succeeded or failed. -/

structure LimiterState where
  running : Nat
  queued : Nat
deriving Repr, DecidableEq

inductive LEvent
  | submit
  | finish (ok : Bool)
deriving Repr, DecidableEq

/-- Modelled from the spec: one limiter transition.  A submitted task starts
immediately when a slot is free (and nothing is queued ahead of it), and is
queued otherwise; a completing task — succeeding (`ok = true`) or failing
(`ok = false`) alike — frees its slot and, when the queue is non-empty, the
head of the queue starts in the freed slot. -/
inductive LimiterStep (N : Nat) : LimiterState → LEvent → LimiterState → Prop
  | submit_run (r : Nat) (h : r < N) :
      LimiterStep N ⟨r, 0⟩ .submit ⟨r + 1, 0⟩
  | submit_queue (r q : Nat) (h : ¬ r < N) :
      LimiterStep N ⟨r, q⟩ .submit ⟨r, q + 1⟩
  | finish_idle (r : Nat) (ok : Bool) :
      LimiterStep N ⟨r + 1, 0⟩ (.finish ok) ⟨r, 0⟩
  | finish_dequeue (r q : Nat) (ok : Bool) :
      LimiterStep N ⟨r + 1, q + 1⟩ (.finish ok) ⟨r + 1, q⟩

/-- States reachable from the idle limiter. -/
inductive LimiterReachable (N : Nat) : LimiterState → Prop
  | init : LimiterReachable N ⟨0, 0⟩
  | step (s : LimiterState) (e : LEvent) (s' : LimiterState) :
      LimiterReachable N s → LimiterStep N s e s' → LimiterReachable N s'

lemma limiter_invariant (N : Nat) (s : LimiterState) (h : LimiterReachable N s) :
    s.running ≤ N ∧ (0 < s.queued → s.running = N) := by
  induction h with
  | init => exact ⟨Nat.zero_le N, by intro h; cases h⟩
  | step s e s' _ hstep ih =>
    obtain ⟨ih1, ih2⟩ := ih
    cases hstep with
    | submit_run r hr => exact ⟨hr, by intro h; cases h⟩
    | submit_queue r q hr =>
      refine ⟨ih1, ?_⟩
      intro _
      simp only at ih1 ⊢
      omega
    | finish_idle r ok => exact ⟨by simp only at ih1 ⊢; omega, by intro h; cases h⟩
    | finish_dequeue r q ok =>
      have hN : r + 1 = N := ih2 (Nat.succ_pos q)
      exact ⟨by simp only; omega, fun _ => hN⟩

/-- Claim C4. With limiter capacity N: (i) every reachable state has at most N
running tasks; (ii) a step that shortens the queue — the start of a queued
(N+1)th task — is a completion event, and it happens only when all N slots
are occupied; (iii) a completion (success or failure alike) is enabled in
every state with a running task; (iv) every completion event releases exactly
one unit of outstanding work, unconditionally, so capacity is never
permanently leaked. -/
theorem c4_concurrency_bound (N : Nat) :
    (∀ s, LimiterReachable N s → s.running ≤ N) ∧
      (∀ s e s', LimiterReachable N s → LimiterStep N s e s' →
        s'.queued < s.queued → (∃ ok, e = .finish ok) ∧ s.running = N) ∧
      (∀ s (ok : Bool), 0 < s.running → ∃ s', LimiterStep N s (.finish ok) s') ∧
      (∀ s s' (ok : Bool), LimiterStep N s (.finish ok) s' →
        s'.running + s'.queued + 1 = s.running + s.queued) := by
  refine ⟨fun s h => (limiter_invariant N s h).1, ?_, ?_, ?_⟩
  · intro s e s' hreach hstep hq
    cases hstep with
    | submit_run r hr => simp at hq
    | submit_queue r q hr => simp at hq
    | finish_idle r ok => simp at hq
    | finish_dequeue r q ok =>
      exact ⟨⟨ok, rfl⟩, (limiter_invariant N _ hreach).2 (Nat.succ_pos q)⟩
  · intro s ok hr
    obtain ⟨r, q⟩ := s
    simp only at hr
    cases r with
    | zero => cases hr
    | succ r =>
      cases q with
      | zero => exact ⟨⟨r, 0⟩, LimiterStep.finish_idle r ok⟩
      | succ q => exact ⟨⟨r + 1, q⟩, LimiterStep.finish_dequeue r q ok⟩
  · intro s s' ok hstep
    cases hstep with
    | finish_idle r hok => simp
    | finish_dequeue r q hok => simp only; omega

/-- Claim C4, witness. The bound at a concrete input: with capacity 1, the
state reached by submitting one task has at most 1 running task. -/
theorem c4_witness : (⟨1, 0⟩ : LimiterState).running ≤ 1 :=
  (c4_concurrency_bound 1).1 ⟨1, 0⟩
    (LimiterReachable.step ⟨0, 0⟩ .submit ⟨1, 0⟩ LimiterReachable.init
      (LimiterStep.submit_run 0 Nat.zero_lt_one))

/-! ## Filename sanitization -/

/-- Whether `needle` matches at the head of `hay`. -/
def matchesAt : List Char → List Char → Bool
  | [], _ => true
  | _ :: _, [] => false
  | a :: as, b :: bs => a == b && matchesAt as bs

/-- Whether `needle` occurs as a contiguous run somewhere in `hay`. -/
def hasSub (needle : List Char) : List Char → Bool
  | [] => needle.isEmpty
  | b :: bs => matchesAt needle (b :: bs) || hasSub needle bs

/-- The regular expression `^[A-Za-z0-9._-]+\.pdf$`: every character is in the
class, there is at least one character before the extension, and the name
ends in `.pdf`. -/
def matchesPdfPattern (s : String) : Bool :=
  s.data.all allowedChar && decide (5 ≤ s.data.length) &&
    (s.data.drop (s.data.length - 4) == ".pdf".data)

/-- The injection-attempt filename of the spec's sanitization property. -/
def evilName : String := "evil\"; rm -rf /.xlsx"

/-- Claim C7, counterexample. The sanitized disposition filename for
`evil"; rm -rf /.xlsx` is `evil___rm_-rf__.pdf`; it does match the claimed
pattern, but it still contains `rm` — the letters `r` and `m` are in the
allowed class and survive sanitization — so the claim that it contains no
`rm` is false. -/
theorem c7_counterexample :
    ¬ (matchesPdfPattern (pdfNameOf (some evilName)) = true ∧
        hasSub "rm".data (pdfNameOf (some evilName)).data = false ∧
        (pdfNameOf (some evilName)).data.all (fun c => !(c == '"' || c == ';')) = true) := by
  intro h
  exact absurd h.2.1 (by decide)

/-- Claim C7, amended. The response filename is produced by stripping a
trailing `.xlsx` extension, appending `.pdf`, and replacing every character
outside `[A-Za-z0-9._-]` with `_`; every character of a sanitized name lies
in that class, and for the input name `evil"; rm -rf /.xlsx` the resulting
disposition filename matches `^[A-Za-z0-9._-]+\.pdf$` and contains no quote
or semicolon characters. -/
theorem c7_amended :
    (∀ name : String, (sanitizeFilename name).data.all allowedChar = true) ∧
      pdfNameOf (some evilName) = "evil___rm_-rf__.pdf" ∧
      matchesPdfPattern (pdfNameOf (some evilName)) = true ∧
      (pdfNameOf (some evilName)).data.all (fun c => !(c == '"' || c == ';')) = true := by
  refine ⟨?_, by decide, by decide, by decide⟩
  intro name
  show (name.data.map (fun c => if allowedChar c then c else '_')).all allowedChar = true
  rw [List.all_eq_true]
  intro c hc
  rw [List.mem_map] at hc
  obtain ⟨a, _, rfl⟩ := hc
  by_cases h : allowedChar a = true
  · simp [h]
  · simp only [h, if_neg, Bool.false_eq_true, if_false]
    decide

end XlsxToPdf
